import Mathlib

/-!
Shallow embedding of the mazerunner-core navigation core
(maze.h, mouse.h, src/sensors.h) and proofs about it.

Modelling conventions:
* `uint8_t` values are `Nat` with explicit `% 256` where the source can
  overflow (the `Location` constructor), and the 2-bit wall fields of
  `WallInfo` truncate writes with `% 4`, as the C bit-fields do.
* Enumerations (`WallState`, `Heading`, `MazeMask`, steering modes) are the
  `Nat` values the C compiler assigns, because the source computes on them
  (`wall & mask`, `(heading + 1) % 4`, `state & UNKNOWN`).
* The 16x16 arrays `m_walls` and `m_cost` are total maps `Nat → Nat → _`
  but every access made through a `Location` is bounds-checked:
  an out-of-range read yields `none` (no value exists for it in the model),
  and an out-of-range write is dropped and recorded in a `Bool` flag
  (the preceding in-range writes of the same statement sequence are kept,
  as they are in the C object).  Array accesses whose indices are literal
  loop variables `0..15` are in range by construction and are direct.
* `float` arithmetic in sensors.h is modelled over `ℚ`; the C cast
  `(int)` truncates toward zero.
-/

set_option maxRecDepth 100000

namespace Mazerunner

/-- Wall states, from the `WallState` enum of maze.h. -/
def EXIT : Nat := 0

/-- A wall that has been seen and confirmed present. -/
def WALL : Nat := 1

/-- A wall that has not yet been seen. -/
def UNKNOWN : Nat := 2

/-- Virtual walls are not used in this code but are labelled for completeness. -/
def VIRTUAL : Nat := 3

/-- Mask value treating unseen walls as exits (maze.h `MazeMask`). -/
def MASK_OPEN : Nat := 1

/-- Mask value treating unseen walls as walls (maze.h `MazeMask`). -/
def MASK_CLOSED : Nat := 3

/-- Heading values from the `Heading` enum of maze.h. -/
def NORTH : Nat := 0

/-- Heading value EAST. -/
def EAST : Nat := 1

/-- Heading value SOUTH. -/
def SOUTH : Nat := 2

/-- Heading value WEST. -/
def WEST : Nat := 3

/-- Number of cardinal headings. -/
def HEADING_COUNT : Nat := 4

/-- Sentinel heading returned when no neighbour is viable. -/
def BLOCKED : Nat := 99

/-- Direction values from the `Direction` enum of maze.h. -/
def AHEAD : Nat := 0

/-- Relative direction RIGHT. -/
def RIGHT : Nat := 1

/-- Relative direction BACK. -/
def BACK : Nat := 2

/-- Relative direction LEFT. -/
def LEFT : Nat := 3

/-- maze.h `right_from`. -/
def right_from (heading : Nat) : Nat := (heading + 1) % HEADING_COUNT

/-- maze.h `left_from`. -/
def left_from (heading : Nat) : Nat := (heading + HEADING_COUNT - 1) % HEADING_COUNT

/-- maze.h `ahead_from`. -/
def ahead_from (heading : Nat) : Nat := heading

/-- maze.h `behind_from`. -/
def behind_from (heading : Nat) : Nat := (heading + 2) % HEADING_COUNT

/-- maze.h `MAX_COST`. -/
def MAX_COST : Nat := 255

/-- maze.h `MAZE_WIDTH`. -/
def MAZE_WIDTH : Nat := 16

/-- maze.h `Location`: a pair of `uint8_t` coordinates. -/
structure Location where
  x : Nat
  y : Nat
deriving DecidableEq

/-- Construction of a `Location` from `int` expressions: the `uint8_t`
constructor arguments truncate mod 256. -/
def Location.mk8 (x y : Nat) : Location := ⟨x % 256, y % 256⟩

/-- maze.h `Location::is_in_maze`. -/
def Location.is_in_maze (l : Location) : Bool := decide (l.x < MAZE_WIDTH) && decide (l.y < MAZE_WIDTH)

/-- maze.h `Location::north`: `Location(x, (y + 1) + MAZE_WIDTH)`. -/
def Location.north (l : Location) : Location := Location.mk8 l.x ((l.y + 1) + MAZE_WIDTH)

/-- maze.h `Location::east`: `Location((x + 1) + MAZE_WIDTH, y)`. -/
def Location.east (l : Location) : Location := Location.mk8 ((l.x + 1) + MAZE_WIDTH) l.y

/-- maze.h `Location::south`: `Location(x, (y + MAZE_WIDTH - 1) % MAZE_WIDTH)`. -/
def Location.south (l : Location) : Location := Location.mk8 l.x ((l.y + MAZE_WIDTH - 1) % MAZE_WIDTH)

/-- maze.h `Location::west`: `Location((x + MAZE_WIDTH - 1) % MAZE_WIDTH, y)`. -/
def Location.west (l : Location) : Location := Location.mk8 ((l.x + MAZE_WIDTH - 1) % MAZE_WIDTH) l.y

/-- maze.h `Location::neighbour`; the `default` branch returns `*this`. -/
def Location.neighbour (l : Location) (heading : Nat) : Location :=
  if heading = NORTH then l.north
  else if heading = EAST then l.east
  else if heading = SOUTH then l.south
  else if heading = WEST then l.west
  else l

/-- maze.h `WallInfo`: four 2-bit wall-state fields. -/
structure WallInfo where
  north : Nat
  east : Nat
  south : Nat
  west : Nat
deriving DecidableEq

/-- Assignment to the 2-bit field `north` truncates mod 4. -/
def WallInfo.setNorth (w : WallInfo) (v : Nat) : WallInfo := { w with north := v % 4 }

/-- Assignment to the 2-bit field `east` truncates mod 4. -/
def WallInfo.setEast (w : WallInfo) (v : Nat) : WallInfo := { w with east := v % 4 }

/-- Assignment to the 2-bit field `south` truncates mod 4. -/
def WallInfo.setSouth (w : WallInfo) (v : Nat) : WallInfo := { w with south := v % 4 }

/-- Assignment to the 2-bit field `west` truncates mod 4. -/
def WallInfo.setWest (w : WallInfo) (v : Nat) : WallInfo := { w with west := v % 4 }

/-- A 16x16 C array, as a total map over its index space. -/
def Grid (α : Type) : Type := Nat → Nat → α

/-- In-range array write (used where the source indexes with loop
variables or literals that are within `0..15` by construction). -/
def upd2 {α : Type} (g : Grid α) (i j : Nat) (v : α) : Grid α :=
  fun a b => if a = i ∧ b = j then v else g a b

/-- Bounds-checked array read for `Location`-derived indices: an index
outside the 16x16 array has no value in the model. -/
def rd2 {α : Type} (g : Grid α) (i j : Nat) : Option α :=
  if i < MAZE_WIDTH ∧ j < MAZE_WIDTH then some (g i j) else none

/-- Bounds-checked read-modify-write of one cell record for
`Location`-derived indices.  An out-of-range write is dropped and the
returned flag is `true` (in the C program this is an out-of-bounds access). -/
def wrField {α : Type} (g : Grid α) (i j : Nat) (f : α → α) : Grid α × Bool :=
  if i < MAZE_WIDTH ∧ j < MAZE_WIDTH then (upd2 g i j (f (g i j)), false) else (g, true)

/-- maze.h `Maze` state: the mask, the cost array and the wall array. -/
structure Maze where
  m_mask : Nat
  m_cost : Grid Nat
  m_walls : Grid WallInfo

/-- maze.h `Maze::walls` accessor, bounds-checked. -/
def Maze.walls (m : Maze) (loc : Location) : Option WallInfo :=
  rd2 m.m_walls loc.x loc.y

/-- maze.h `Maze::has_unknown_walls`, bounds-checked. -/
def Maze.has_unknown_walls (m : Maze) (cell : Location) : Option Bool :=
  (m.walls cell).map fun walls_here =>
    (walls_here.north == UNKNOWN) || (walls_here.east == UNKNOWN) ||
    (walls_here.south == UNKNOWN) || (walls_here.west == UNKNOWN)

/-- maze.h `Maze::is_exit`: the effective wall state is `state & mask`;
the `default` branch yields `false`.  Bounds-checked read of the cell. -/
def Maze.is_exit (m : Maze) (loc : Location) (heading : Nat) : Option Bool :=
  (m.walls loc).map fun walls =>
    if heading = NORTH then Nat.land walls.north m.m_mask == EXIT
    else if heading = EAST then Nat.land walls.east m.m_mask == EXIT
    else if heading = SOUTH then Nat.land walls.south m.m_mask == EXIT
    else if heading = WEST then Nat.land walls.west m.m_mask == EXIT
    else false

/-- maze.h `Maze::set_wall_state`: writes the wall at `loc` and the
mirrored slot of the neighbour in that heading, in source order.  The
returned flag is `true` if any of the two writes was out of range (and
therefore dropped in the model).  The `default` branch ignores the call. -/
def Maze.set_wall_state (m : Maze) (loc : Location) (heading : Nat) (state : Nat) : Maze × Bool :=
  if heading = NORTH then
    let r1 := wrField m.m_walls loc.x loc.y (fun w => w.setNorth state)
    let r2 := wrField r1.1 loc.north.x loc.north.y (fun w => w.setSouth state)
    ({ m with m_walls := r2.1 }, r1.2 || r2.2)
  else if heading = EAST then
    let r1 := wrField m.m_walls loc.x loc.y (fun w => w.setEast state)
    let r2 := wrField r1.1 loc.east.x loc.east.y (fun w => w.setWest state)
    ({ m with m_walls := r2.1 }, r1.2 || r2.2)
  else if heading = WEST then
    let r1 := wrField m.m_walls loc.x loc.y (fun w => w.setWest state)
    let r2 := wrField r1.1 loc.west.x loc.west.y (fun w => w.setEast state)
    ({ m with m_walls := r2.1 }, r1.2 || r2.2)
  else if heading = SOUTH then
    let r1 := wrField m.m_walls loc.x loc.y (fun w => w.setSouth state)
    let r2 := wrField r1.1 loc.south.x loc.south.y (fun w => w.setNorth state)
    ({ m with m_walls := r2.1 }, r1.2 || r2.2)
  else (m, false)

/-- maze.h `Maze::update_wall_state`: each cardinal case reads the wall
at `loc` and returns early unless `(state & UNKNOWN) == UNKNOWN`; the
`default` branch of the switch falls through to `set_wall_state`.
The flag is `true` if any access was out of range. -/
def Maze.update_wall_state (m : Maze) (loc : Location) (heading : Nat) (state : Nat) : Maze × Bool :=
  if heading = NORTH then
    match m.walls loc with
    | none => (m, true)
    | some w => if Nat.land w.north UNKNOWN ≠ UNKNOWN then (m, false) else m.set_wall_state loc heading state
  else if heading = EAST then
    match m.walls loc with
    | none => (m, true)
    | some w => if Nat.land w.east UNKNOWN ≠ UNKNOWN then (m, false) else m.set_wall_state loc heading state
  else if heading = WEST then
    match m.walls loc with
    | none => (m, true)
    | some w => if Nat.land w.west UNKNOWN ≠ UNKNOWN then (m, false) else m.set_wall_state loc heading state
  else if heading = SOUTH then
    match m.walls loc with
    | none => (m, true)
    | some w => if Nat.land w.south UNKNOWN ≠ UNKNOWN then (m, false) else m.set_wall_state loc heading state
  else m.set_wall_state loc heading state

/-- maze.h `Maze::initialise`: all walls `UNKNOWN`, the boundary ring
forced to `WALL`, the start cell's four walls made definite, and the
mask left `MASK_OPEN`.  All indices are loop variables in `0..15` or
literals, hence in range by construction.  The four field assignments
of the first loop body together define the whole cell record, as do the
four assignments to cell `(0,0)`. -/
def Maze.initialise (m : Maze) : Maze :=
  let g0 := (List.range MAZE_WIDTH).foldl (fun g x =>
      (List.range MAZE_WIDTH).foldl (fun g y =>
        upd2 g x y ⟨UNKNOWN, UNKNOWN, UNKNOWN, UNKNOWN⟩) g) m.m_walls
  let g1 := (List.range MAZE_WIDTH).foldl (fun g x =>
      let g := upd2 g x 0 ((g x 0).setSouth WALL)
      upd2 g x (MAZE_WIDTH - 1) ((g x (MAZE_WIDTH - 1)).setNorth WALL)) g0
  let g2 := (List.range MAZE_WIDTH).foldl (fun g y =>
      let g := upd2 g 0 y ((g 0 y).setWest WALL)
      upd2 g (MAZE_WIDTH - 1) y ((g (MAZE_WIDTH - 1) y).setEast WALL)) g1
  let g3 := upd2 g2 0 0 ⟨EXIT, WALL, WALL, WALL⟩
  { m with m_walls := g3, m_mask := MASK_OPEN }

/-- maze.h `Maze::set_mask`. -/
def Maze.set_mask (m : Maze) (mask : Nat) : Maze := { m with m_mask := mask }

/-- maze.h `Maze::cost`, bounds-checked. -/
def Maze.cost (m : Maze) (cell : Location) : Option Nat :=
  rd2 m.m_cost cell.x cell.y

/-- maze.h `Maze::neighbour_cost`: `MAX_COST` unless the heading is an
exit, otherwise the neighbour's stored cost (a bounds-checked read,
since the neighbour may lie outside the array). -/
def Maze.neighbour_cost (m : Maze) (cell : Location) (heading : Nat) : Option Nat :=
  match m.is_exit cell heading with
  | none => none
  | some false => some MAX_COST
  | some true =>
    let next_cell := cell.neighbour heading
    rd2 m.m_cost next_cell.x next_cell.y

/-- Result of a `flood` run: normal completion, an out-of-range array
access (undefined behaviour in the C program), or fuel exhaustion of the
embedded while-loop. -/
inductive FloodResult where
  | ok (m : Maze)
  | oob
  | fuelOut

/-- Whether a `FloodResult` is the out-of-range outcome. -/
def FloodResult.isOob : FloodResult → Bool
  | .oob => true
  | _ => false

/-- Inner `for h = NORTH..WEST` loop of maze.h `Maze::flood`: for each
exit heading, read the neighbour's cost and, if it exceeds `newCost`,
write `newCost` (a `uint8_t` store, hence `% 256`) and append the
neighbour to the queue.  `none` signals an out-of-range read. -/
def floodScan (m : Maze) (q : List Location) (here : Location) (newCost : Nat) :
    List Nat → Option (Maze × List Location)
  | [] => some (m, q)
  | h :: hs =>
    match m.is_exit here h with
    | none => none
    | some false => floodScan m q here newCost hs
    | some true =>
      let nextCell := here.neighbour h
      match rd2 m.m_cost nextCell.x nextCell.y with
      | none => none
      | some c =>
        if newCost < c then
          floodScan { m with m_cost := upd2 m.m_cost nextCell.x nextCell.y (newCost % 256) }
            (q ++ [nextCell]) here newCost hs
        else floodScan m q here newCost hs

/-- While-loop of maze.h `Maze::flood`, with fuel.  The queue is the
FIFO of queue.h.  Modelled from the spec: queue.h is not under src;
the spec describes it as a FIFO queue whose head is dequeued and whose
additions go to the tail. -/
def floodLoop (m : Maze) (queue : List Location) : Nat → FloodResult
  | 0 => .fuelOut
  | fuel + 1 =>
    match queue with
    | [] => .ok m
    | here :: rest =>
      match rd2 m.m_cost here.x here.y with
      | none => .oob
      | some hereCost =>
        match floodScan m rest here (hereCost + 1) [NORTH, EAST, SOUTH, WEST] with
        | none => .oob
        | some r => floodLoop r.1 r.2 fuel

/-- maze.h `Maze::flood`: reset every cost to `MAX_COST`, set the target
cost to zero, seed the queue with the target, then run the loop. -/
def Maze.flood (m : Maze) (target : Location) (fuel : Nat) : FloodResult :=
  let c0 := (List.range MAZE_WIDTH).foldl (fun g x =>
      (List.range MAZE_WIDTH).foldl (fun g y => upd2 g x y MAX_COST) g) m.m_cost
  if target.x < MAZE_WIDTH ∧ target.y < MAZE_WIDTH then
    floodLoop { m with m_cost := upd2 c0 target.x target.y 0 } [target] fuel
  else .oob

/-- Probe sequence of maze.h `Maze::heading_to_smallest`: fold the
running `(best_cost, best_heading)` pair over the given headings,
updating it whenever `neighbour_cost` is strictly smaller.  `none`
signals an out-of-range read inside `neighbour_cost`. -/
def scanHeadings (m : Maze) (cell : Location) :
    Nat × Nat → List Nat → Option (Nat × Nat)
  | acc, [] => some acc
  | acc, h :: hs =>
    match m.neighbour_cost cell h with
    | none => none
    | some c =>
      if c < acc.1 then scanHeadings m cell (c, h) hs
      else scanHeadings m cell acc hs

/-- maze.h `Maze::heading_to_smallest`: probes ahead, right, left and
behind of `start_heading` in that order, starting from
`(cost cell, BLOCKED)`, and maps a final best cost of `MAX_COST` to
`BLOCKED`. -/
def Maze.heading_to_smallest (m : Maze) (cell : Location) (start_heading : Nat) : Option Nat :=
  match m.cost cell with
  | none => none
  | some best0 =>
    match scanHeadings m cell (best0, BLOCKED)
        [ahead_from start_heading, right_from start_heading,
         left_from start_heading, behind_from start_heading] with
    | none => none
    | some best => some (if best.1 = MAX_COST then BLOCKED else best.2)

/-- A maze object before `initialise` runs; the wall and cost contents
stand for the arbitrary power-on memory of the arrays. -/
def mazeBlank : Maze :=
  { m_mask := MASK_OPEN
    m_cost := fun _ _ => 0
    m_walls := fun _ _ => ⟨UNKNOWN, UNKNOWN, UNKNOWN, UNKNOWN⟩ }

/-- The maze immediately after `Maze::initialise`. -/
def mazeInit : Maze := mazeBlank.initialise

/-- Control-flow skeleton of `Mouse::search_to` (mouse.h), focused on the
returned value.  Motion commands, logging, delays and the map/flood
updates cannot influence the returned value and are elided; the
per-iteration location update (`maze.neighbour`, `update_map`,
`maze.flood_maze`, `maze.direction_to_smallest` — maze members declared
outside src) is abstracted as the oracle `next_location`, and the
user-button poll (`switches.button_pressed`) as the oracle `button`,
both indexed by the remaining fuel.  `none` means the while-loop had not
terminated within `fuel` iterations.  The C function's only return
statement is `return 0`, reached when the loop exits — either because
`location == target` or because the button poll broke out of the loop. -/
def search_to (target : Nat) (button : Nat → Bool) (next_location : Nat → Nat → Nat)
    (location : Nat) : Nat → Option Int
  | 0 => none
  | fuel + 1 =>
    if location = target then some 0
    else if button fuel then some 0
    else search_to target button next_location (next_location location fuel) fuel

/-- Steering mode `STEER_NORMAL` (sensors.h anonymous enum). -/
def STEER_NORMAL : Nat := 0

/-- Steering mode `STEER_LEFT_WALL`. -/
def STEER_LEFT_WALL : Nat := 1

/-- Steering mode `STEER_RIGHT_WALL`. -/
def STEER_RIGHT_WALL : Nat := 2

/-- Steering mode `STEERING_OFF`. -/
def STEERING_OFF : Nat := 3

/-- Modelled from the spec: the calibration constants used by
sensors.h (`RFS_CHANNEL` .. `LFS_CHANNEL`, the four normalisation
scales, the wall thresholds, `SIDE_NOMINAL`, `STEERING_KP`,
`STEERING_KD`, `LOOP_INTERVAL` and `STEERING_ADJUST_LIMIT`) live in the
robot configuration headers (config-robot-orion.h / config-ukmarsbot.h),
which are not under src.  They are carried as abstract parameters here;
the spec treats all configuration/calibration constants as opaque. -/
structure SensorConfig where
  RFS_CHANNEL : Nat
  RSS_CHANNEL : Nat
  LSS_CHANNEL : Nat
  LFS_CHANNEL : Nat
  FRONT_RIGHT_SCALE : ℚ
  RIGHT_SCALE : ℚ
  LEFT_SCALE : ℚ
  FRONT_LEFT_SCALE : ℚ
  LEFT_THRESHOLD : Int
  RIGHT_THRESHOLD : Int
  FRONT_THRESHOLD : Int
  SIDE_NOMINAL : Int
  STEERING_KP : ℚ
  STEERING_KD : ℚ
  LOOP_INTERVAL : ℚ
  STEERING_ADJUST_LIMIT : ℚ

/-- State of the `Sensors` object (sensors.h): the ADC sample array,
the published raw and normalised readings, the wall flags, the front
sum, the steering mode and the PD controller memory. -/
structure SensorsState where
  s_sensors_enabled : Bool
  adc : Nat → Int
  g_lfs_raw : Int
  g_lss_raw : Int
  g_rss_raw : Int
  g_rfs_raw : Int
  g_lfs : Int
  g_lss : Int
  g_rss : Int
  g_rfs : Int
  g_front_sum : Int
  g_lss_has_wall : Bool
  g_rss_has_wall : Bool
  g_front_has_wall : Bool
  g_steering_mode : Nat
  last_steering_error : ℚ
  g_cross_track_error : ℚ
  g_steering_adjustment : ℚ

/-- The C cast `(int)` of a `float` expression truncates toward zero. -/
def cIntTrunc (q : ℚ) : Int := if 0 ≤ q then ⌊q⌋ else -⌊-q⌋

/-- sensors.h `Sensors::update_wall_sensors`.  Returns the new sensor
state and the cross-track error.  If the sensors are disabled it
returns 0 at once, touching nothing.  Otherwise: clamp `adc[0..3]` to
be non-negative, latch the raw channel readings, normalise them by the
configured scales (an `(int)` cast of a `float` product), threshold the
side readings and the front sum into wall flags, compute the mode- and
flag-dependent alignment error, and force the error to zero whenever
the front sum exceeds 100. -/
def update_wall_sensors (cfg : SensorConfig) (s : SensorsState) : SensorsState × Int :=
  if s.s_sensors_enabled = false then (s, 0)
  else
    let adc1 : Nat → Int := fun i =>
      if i = 0 then max 0 (s.adc 0)
      else if i = 1 then max 0 (s.adc 1)
      else if i = 2 then max 0 (s.adc 2)
      else if i = 3 then max 0 (s.adc 3)
      else s.adc i
    let rfs_raw := adc1 cfg.RFS_CHANNEL
    let rss_raw := adc1 cfg.RSS_CHANNEL
    let lss_raw := adc1 cfg.LSS_CHANNEL
    let lfs_raw := adc1 cfg.LFS_CHANNEL
    let rfs := cIntTrunc ((rfs_raw : ℚ) * cfg.FRONT_RIGHT_SCALE)
    let rss := cIntTrunc ((rss_raw : ℚ) * cfg.RIGHT_SCALE)
    let lss := cIntTrunc ((lss_raw : ℚ) * cfg.LEFT_SCALE)
    let lfs := cIntTrunc ((lfs_raw : ℚ) * cfg.FRONT_LEFT_SCALE)
    let lss_has_wall := decide (cfg.LEFT_THRESHOLD < lss)
    let rss_has_wall := decide (cfg.RIGHT_THRESHOLD < rss)
    let front_sum := lfs + rfs
    let front_has_wall := decide (cfg.FRONT_THRESHOLD < front_sum)
    let right_error := cfg.SIDE_NOMINAL - rss
    let left_error := cfg.SIDE_NOMINAL - lss
    let error0 : Int :=
      if s.g_steering_mode = STEER_NORMAL then
        (if lss_has_wall && rss_has_wall then left_error - right_error
         else if lss_has_wall then 2 * left_error
         else if rss_has_wall then -2 * right_error
         else 0)
      else if s.g_steering_mode = STEER_LEFT_WALL then 2 * left_error
      else if s.g_steering_mode = STEER_RIGHT_WALL then -2 * right_error
      else 0
    let error : Int := if 100 < front_sum then 0 else error0
    ({ s with
        adc := adc1
        g_rfs_raw := rfs_raw, g_rss_raw := rss_raw
        g_lss_raw := lss_raw, g_lfs_raw := lfs_raw
        g_rfs := rfs, g_rss := rss, g_lss := lss, g_lfs := lfs
        g_lss_has_wall := lss_has_wall
        g_rss_has_wall := rss_has_wall
        g_front_sum := front_sum
        g_front_has_wall := front_has_wall }, error)

/-- The Arduino `constrain(amt, low, high)` macro:
`amt < low ? low : (amt > high ? high : amt)`. -/
def constrain (amt low high : ℚ) : ℚ :=
  if amt < low then low else if high < amt then high else amt

/-- sensors.h `Sensors::calculate_steering_adjustment`: a PD term scaled
by the loop interval, constrained to the steering adjustment limit; the
error is remembered for the next derivative term. -/
def calculate_steering_adjustment (cfg : SensorConfig) (s : SensorsState) (error : ℚ) :
    SensorsState × ℚ :=
  let pTerm := cfg.STEERING_KP * error
  let dTerm := cfg.STEERING_KD * (error - s.last_steering_error)
  let adjustment := (pTerm + dTerm) * cfg.LOOP_INTERVAL
  let adjustment1 := constrain adjustment (-cfg.STEERING_ADJUST_LIMIT) cfg.STEERING_ADJUST_LIMIT
  ({ s with last_steering_error := error }, adjustment1)

/-- Wall state recorded at `loc` in a given cardinal heading — a
reading aid for the statements below, selecting the corresponding
field of the bounds-checked `Maze::walls` record. -/
def wallStateAt (m : Maze) (loc : Location) (heading : Nat) : Option Nat :=
  (m.walls loc).map fun w =>
    if heading = NORTH then w.north
    else if heading = EAST then w.east
    else if heading = SOUTH then w.south
    else if heading = WEST then w.west
    else 0

/-- A concrete sensor configuration used by witnesses: unit scales,
nominal side reading 100, thresholds 40/40/100, proportional gain 1,
derivative gain 0, loop interval 1 and adjustment limit 10. -/
def cfgUnit : SensorConfig :=
  { RFS_CHANNEL := 0, RSS_CHANNEL := 1, LSS_CHANNEL := 2, LFS_CHANNEL := 3
    FRONT_RIGHT_SCALE := 1, RIGHT_SCALE := 1, LEFT_SCALE := 1, FRONT_LEFT_SCALE := 1
    LEFT_THRESHOLD := 40, RIGHT_THRESHOLD := 40, FRONT_THRESHOLD := 100
    SIDE_NOMINAL := 100
    STEERING_KP := 1, STEERING_KD := 0, LOOP_INTERVAL := 1, STEERING_ADJUST_LIMIT := 10 }

/-- A concrete sensor state with the sensors enabled and all ADC
channels reading 50. -/
def sensorsOn : SensorsState :=
  { s_sensors_enabled := true, adc := fun _ => 50
    g_lfs_raw := 0, g_lss_raw := 0, g_rss_raw := 0, g_rfs_raw := 0
    g_lfs := 0, g_lss := 0, g_rss := 0, g_rfs := 0
    g_front_sum := 0
    g_lss_has_wall := false, g_rss_has_wall := false, g_front_has_wall := false
    g_steering_mode := STEER_NORMAL
    last_steering_error := 0, g_cross_track_error := 0, g_steering_adjustment := 0 }

/-- The same sensor state with the sensors disabled. -/
def sensorsOff : SensorsState := { sensorsOn with s_sensors_enabled := false }

/-- The Arduino `constrain(a, -L, L)` stays within `[-L, L]` when the
interval is non-empty. -/
lemma constrain_within (a L : ℚ) (h : 0 ≤ L) :
    -L ≤ constrain a (-L) L ∧ constrain a (-L) L ≤ L := by
  unfold constrain
  split
  · exact ⟨le_refl _, by linarith⟩
  · split
    · exact ⟨by linarith, le_refl _⟩
    · rename_i h1 h2
      exact ⟨not_lt.mp h1, not_lt.mp h2⟩

/-- C1: the claim says that after `flood(target)` every cell holds its
shortest-hop distance to the target (Manhattan distance `x + y` on the
boundary-walls-only maze flooded to `(0,0)`).  The code cannot deliver
this: on the freshly initialised maze the very first expansion from
`(0,0)` takes the NORTH exit to `Location(0, 17)` and accesses
`m_cost[0][17]`, outside the 16x16 array — the flood aborts on an
out-of-range access instead of completing with the claimed costs. -/
theorem flood_open_maze_out_of_range :
    (mazeInit.flood ⟨0, 0⟩ 100000).isOob = true := by decide

/-- C2: `Mouse::search_to` never returns the failure code `-1`:
its only return statement is `return 0`, so every terminating run —
whatever the button oracle and the location updates do, in particular
when the flood finds the target unreachable — yields `0`; the
alternative is that the loop does not terminate at all. -/
theorem search_to_returns_only_zero (target : Nat) (button : Nat → Bool)
    (next_location : Nat → Nat → Nat) :
    ∀ (fuel location : Nat),
      search_to target button next_location location fuel = none ∨
      search_to target button next_location location fuel = some 0 := by
  intro fuel
  induction fuel with
  | zero => intro location; left; rfl
  | succ f ih =>
    intro location
    by_cases h1 : location = target
    · right; simp [search_to, h1]
    · by_cases h2 : button f
      · right; simp [search_to, h1, h2]
      · simpa [search_to, h1, h2] using ih (next_location location f)

/-- C3: the mirrored-wall invariant fails.  On the initialised maze,
`set_wall_state((3,3), NORTH, WALL)` stores `WALL` at `(3,3)`-north but
the mirror write goes to `Location(3, 20)`, outside the array (flag
`true`), so the geometric neighbour `(3,4)` keeps `UNKNOWN` in its
south slot — the two slots of the logical wall disagree. -/
theorem set_wall_state_mirror_slot_lost :
    (mazeInit.set_wall_state ⟨3, 3⟩ NORTH WALL).2 = true ∧
    wallStateAt (mazeInit.set_wall_state ⟨3, 3⟩ NORTH WALL).1 ⟨3, 3⟩ NORTH = some WALL ∧
    wallStateAt (mazeInit.set_wall_state ⟨3, 3⟩ NORTH WALL).1 ⟨3, 4⟩ SOUTH = some UNKNOWN := by
  decide

/-- C4: for every in-maze location, `north`/`east` add `MAZE_WIDTH`
instead of wrapping, producing `(x, y+17)` and `(x+17, y)` outside the
16x16 grid, while `south`/`west` wrap modulo 16; consequently the
mirror writes of `set_wall_state` for NORTH/EAST are out of range
(flag `true`) and the checked wall/cost reads at the north/east
neighbour take the out-of-range branch (`none`). -/
theorem location_north_east_neighbours_out_of_range (loc : Location) (m : Maze) (s : Nat)
    (h : loc.is_in_maze = true) :
    loc.north = ⟨loc.x, loc.y + 17⟩ ∧
    loc.east = ⟨loc.x + 17, loc.y⟩ ∧
    loc.north.is_in_maze = false ∧
    loc.east.is_in_maze = false ∧
    loc.south = ⟨loc.x, (loc.y + 15) % 16⟩ ∧
    loc.west = ⟨(loc.x + 15) % 16, loc.y⟩ ∧
    (m.set_wall_state loc NORTH s).2 = true ∧
    (m.set_wall_state loc EAST s).2 = true ∧
    m.walls loc.north = none ∧
    rd2 m.m_cost loc.north.x loc.north.y = none ∧
    m.walls loc.east = none ∧
    rd2 m.m_cost loc.east.x loc.east.y = none := by
  simp only [Location.is_in_maze, MAZE_WIDTH, Bool.and_eq_true, decide_eq_true_eq] at h
  obtain ⟨hx, hy⟩ := h
  have e1 : loc.north = ⟨loc.x, loc.y + 17⟩ := by
    simp only [Location.north, Location.mk8, MAZE_WIDTH, Location.mk.injEq]
    omega
  have e2 : loc.east = ⟨loc.x + 17, loc.y⟩ := by
    simp only [Location.east, Location.mk8, MAZE_WIDTH, Location.mk.injEq]
    omega
  have e3 : loc.south = ⟨loc.x, (loc.y + 15) % 16⟩ := by
    simp only [Location.south, Location.mk8, MAZE_WIDTH, Location.mk.injEq]
    omega
  have e4 : loc.west = ⟨(loc.x + 15) % 16, loc.y⟩ := by
    simp only [Location.west, Location.mk8, MAZE_WIDTH, Location.mk.injEq]
    omega
  have h17y : ¬ (loc.y + 17 < 16) := by omega
  have h17x : ¬ (loc.x + 17 < 16) := by omega
  have n1 : loc.north.is_in_maze = false := by
    rw [e1]
    simp only [Location.is_in_maze, MAZE_WIDTH]
    simp only [Bool.and_eq_false_iff, decide_eq_false_iff_not]
    omega
  have n2 : loc.east.is_in_maze = false := by
    rw [e2]
    simp only [Location.is_in_maze, MAZE_WIDTH]
    simp only [Bool.and_eq_false_iff, decide_eq_false_iff_not]
    omega
  have w1 : m.walls loc.north = none := by
    rw [e1]
    simp only [Maze.walls, rd2, MAZE_WIDTH]
    rw [if_neg (by omega)]
  have w2 : m.walls loc.east = none := by
    rw [e2]
    simp only [Maze.walls, rd2, MAZE_WIDTH]
    rw [if_neg (by omega)]
  have c1 : rd2 m.m_cost loc.north.x loc.north.y = none := by
    rw [e1]
    simp only [rd2, MAZE_WIDTH]
    rw [if_neg (by omega)]
  have c2 : rd2 m.m_cost loc.east.x loc.east.y = none := by
    rw [e2]
    simp only [rd2, MAZE_WIDTH]
    rw [if_neg (by omega)]
  have f1 : (m.set_wall_state loc NORTH s).2 = true := by
    simp [Maze.set_wall_state, wrField, MAZE_WIDTH, NORTH, EAST, SOUTH, WEST, e1, hx, hy, h17y]
  have f2 : (m.set_wall_state loc EAST s).2 = true := by
    simp [Maze.set_wall_state, wrField, MAZE_WIDTH, NORTH, EAST, SOUTH, WEST, e2, hx, hy, h17x]
  exact ⟨e1, e2, n1, n2, e3, e4, f1, f2, w1, c1, w2, c2⟩

/-- Witness for C4: the in-maze location `(3,3)` on `mazeBlank`. -/
theorem location_north_east_neighbours_out_of_range_witness :
    (⟨3, 3⟩ : Location).is_in_maze = true ∧
    ((⟨3, 3⟩ : Location).north = ⟨3, 3 + 17⟩ ∧
     (⟨3, 3⟩ : Location).east = ⟨3 + 17, 3⟩ ∧
     (⟨3, 3⟩ : Location).north.is_in_maze = false ∧
     (⟨3, 3⟩ : Location).east.is_in_maze = false ∧
     (⟨3, 3⟩ : Location).south = ⟨3, (3 + 15) % 16⟩ ∧
     (⟨3, 3⟩ : Location).west = ⟨(3 + 15) % 16, 3⟩ ∧
     (mazeBlank.set_wall_state ⟨3, 3⟩ NORTH WALL).2 = true ∧
     (mazeBlank.set_wall_state ⟨3, 3⟩ EAST WALL).2 = true ∧
     mazeBlank.walls (⟨3, 3⟩ : Location).north = none ∧
     rd2 mazeBlank.m_cost (⟨3, 3⟩ : Location).north.x (⟨3, 3⟩ : Location).north.y = none ∧
     mazeBlank.walls (⟨3, 3⟩ : Location).east = none ∧
     rd2 mazeBlank.m_cost (⟨3, 3⟩ : Location).east.x (⟨3, 3⟩ : Location).east.y = none) :=
  ⟨by decide, location_north_east_neighbours_out_of_range ⟨3, 3⟩ mazeBlank WALL (by decide)⟩

/-- C5 counterexample: the claim allows any first observation
`X ≠ UNKNOWN`, but `update_wall_state` also writes when the current
state is `VIRTUAL` (the guard tests `state & UNKNOWN`, and
`VIRTUAL & UNKNOWN == UNKNOWN`).  Observing `VIRTUAL` then `WALL` at
`((3,3), SOUTH)` of the initialised maze ends with `WALL`, not the
first-observed `VIRTUAL` — the claim fails at this input. -/
theorem observe_wall_virtual_overwritten :
    wallStateAt mazeInit ⟨3, 3⟩ SOUTH = some UNKNOWN ∧
    VIRTUAL ≠ UNKNOWN ∧
    wallStateAt ((mazeInit.update_wall_state ⟨3, 3⟩ SOUTH VIRTUAL).1.update_wall_state
        ⟨3, 3⟩ SOUTH WALL).1 ⟨3, 3⟩ SOUTH ≠ some VIRTUAL ∧
    wallStateAt ((mazeInit.update_wall_state ⟨3, 3⟩ SOUTH VIRTUAL).1.update_wall_state
        ⟨3, 3⟩ SOUTH WALL).1 ⟨3, 3⟩ SOUTH = some WALL := by
  decide

/-- C5 amended: for every in-maze location, cardinal heading and wall
states `X, Y` with `X` a valid state other than `UNKNOWN` and other
than `VIRTUAL` (that is, a seen state, `EXIT` or `WALL`): if the wall
at `(loc, heading)` is `UNKNOWN`, observing `X` then `Y` leaves the
stored state at `(loc, heading)` equal to `X`, never `Y`. -/
theorem observe_wall_write_once_amended (m : Maze) (loc : Location) (heading X Y : Nat)
    (hin : loc.is_in_maze = true)
    (hh : heading = NORTH ∨ heading = EAST ∨ heading = SOUTH ∨ heading = WEST)
    (hu : wallStateAt m loc heading = some UNKNOWN)
    (hX4 : X < 4) (hXU : X ≠ UNKNOWN) (hXV : X ≠ VIRTUAL) :
    wallStateAt ((m.update_wall_state loc heading X).1.update_wall_state loc heading Y).1
      loc heading = some X := by
  simp only [Location.is_in_maze, MAZE_WIDTH, Bool.and_eq_true, decide_eq_true_eq] at hin
  obtain ⟨hx, hy⟩ := hin
  simp only [UNKNOWN, VIRTUAL] at hXU hXV
  have hX01 : X = 0 ∨ X = 1 := by omega
  have hw : m.walls loc = some (m.m_walls loc.x loc.y) := by
    simp [Maze.walls, rd2, MAZE_WIDTH, hx, hy]
  have hx256 : loc.x % 256 = loc.x := by omega
  have hy256 : loc.y % 256 = loc.y := by omega
  have h17y : ¬ (loc.y + 17 < 16) := by omega
  have h17x : ¬ (loc.x + 17 < 16) := by omega
  have hmodyn : (loc.y + 1 + 16) % 256 = loc.y + 17 := by omega
  have hmodxe : (loc.x + 1 + 16) % 256 = loc.x + 17 := by omega
  have hmodys : (loc.y + 16 - 1) % 16 % 256 = (loc.y + 15) % 16 := by omega
  have hmodxw : (loc.x + 16 - 1) % 16 % 256 = (loc.x + 15) % 16 := by omega
  have hlts : (loc.y + 15) % 16 < 16 := by omega
  have hltw : (loc.x + 15) % 16 < 16 := by omega
  have hnes : loc.y ≠ (loc.y + 15) % 16 := by omega
  have hnew : loc.x ≠ (loc.x + 15) % 16 := by omega
  have hmodys2 : (loc.y + 15) % 16 % 256 = (loc.y + 15) % 16 := by omega
  have hmodxw2 : (loc.x + 15) % 16 % 256 = (loc.x + 15) % 16 := by omega
  have hnes2 : (loc.y + 15) % 16 ≠ loc.y := by omega
  have hnew2 : (loc.x + 15) % 16 ≠ loc.x := by omega
  have h22 : Nat.land 2 2 = 2 := by decide
  have hXland : Nat.land X 2 ≠ 2 := by
    rcases hX01 with rfl | rfl <;> decide
  have hXmod : X % 4 = X := by omega
  rcases hh with rfl | rfl | rfl | rfl
  · have hu1 : (m.m_walls loc.x loc.y).north = 2 := by
      simpa [wallStateAt, hw, NORTH, UNKNOWN] using hu
    simp [Maze.update_wall_state, Maze.set_wall_state, Maze.walls, rd2, wrField, upd2,
      wallStateAt, Location.north, Location.mk8, WallInfo.setNorth, WallInfo.setSouth,
      NORTH, EAST, SOUTH, WEST, UNKNOWN, MAZE_WIDTH,
      hx, hy, hx256, hy256, hmodyn, h17y, hu1, h22, hXland, hXmod]
  · have hu1 : (m.m_walls loc.x loc.y).east = 2 := by
      simpa [wallStateAt, hw, NORTH, EAST, UNKNOWN] using hu
    simp [Maze.update_wall_state, Maze.set_wall_state, Maze.walls, rd2, wrField, upd2,
      wallStateAt, Location.east, Location.mk8, WallInfo.setEast, WallInfo.setWest,
      NORTH, EAST, SOUTH, WEST, UNKNOWN, MAZE_WIDTH,
      hx, hy, hx256, hy256, hmodxe, h17x, hu1, h22, hXland, hXmod]
  · have hu1 : (m.m_walls loc.x loc.y).south = 2 := by
      simpa [wallStateAt, hw, NORTH, EAST, SOUTH, UNKNOWN] using hu
    simp [Maze.update_wall_state, Maze.set_wall_state, Maze.walls, rd2, wrField, upd2,
      wallStateAt, Location.south, Location.mk8, WallInfo.setSouth, WallInfo.setNorth,
      NORTH, EAST, SOUTH, WEST, UNKNOWN, MAZE_WIDTH,
      hx, hy, hx256, hy256, hmodys, hmodys2, hlts, hnes, hnes2, hu1, h22, hXland, hXmod]
  · have hu1 : (m.m_walls loc.x loc.y).west = 2 := by
      simpa [wallStateAt, hw, NORTH, EAST, SOUTH, WEST, UNKNOWN] using hu
    simp [Maze.update_wall_state, Maze.set_wall_state, Maze.walls, rd2, wrField, upd2,
      wallStateAt, Location.west, Location.mk8, WallInfo.setWest, WallInfo.setEast,
      NORTH, EAST, SOUTH, WEST, UNKNOWN, MAZE_WIDTH,
      hx, hy, hx256, hy256, hmodxw, hmodxw2, hltw, hnew, hnew2, hu1, h22, hXland, hXmod]

/-- Witness for the amended C5: observing `WALL` then `EXIT` at
`((3,3), SOUTH)` of the initialised maze leaves `WALL`. -/
theorem observe_wall_write_once_amended_witness :
    (⟨3, 3⟩ : Location).is_in_maze = true ∧
    wallStateAt mazeInit ⟨3, 3⟩ SOUTH = some UNKNOWN ∧
    wallStateAt ((mazeInit.update_wall_state ⟨3, 3⟩ SOUTH WALL).1.update_wall_state
        ⟨3, 3⟩ SOUTH EXIT).1 ⟨3, 3⟩ SOUTH = some WALL :=
  ⟨by decide, by decide,
    observe_wall_write_once_amended mazeInit ⟨3, 3⟩ SOUTH WALL EXIT
      (by decide) (by decide) (by decide) (by decide) (by decide) (by decide)⟩

/-- C6: the claim says `heading_to_smallest` compares the costs of the
accessible neighbours.  On the initialised maze at cell `(0,0)` with
`start_heading = NORTH`, the north side is an exit, so the first probe
fetches the NORTH neighbour's cost from `m_cost[0][17]`, outside the
16x16 cost array (undefined behaviour in C): the checked embedding
takes the out-of-range branch instead of returning a heading. -/
theorem heading_to_smallest_out_of_range_read :
    mazeInit.is_exit ⟨0, 0⟩ NORTH = some true ∧
    mazeInit.heading_to_smallest ⟨0, 0⟩ NORTH = none := by decide

/-- C7: after `initialise`, every wall is `UNKNOWN` except that the
boundary ring is `WALL` and the start cell `(0,0)` is fully definite
(north `EXIT`, east/south/west `WALL`); hence `has_unknown_walls` holds
for every cell except the start cell, and the mask is `MASK_OPEN`. -/
theorem initialise_walls_and_mask :
    mazeInit.m_mask = MASK_OPEN ∧
    ∀ x < 16, ∀ y < 16,
      mazeInit.walls ⟨x, y⟩ = some
        ⟨if x = 0 ∧ y = 0 then EXIT else if y = 15 then WALL else UNKNOWN,
         if x = 15 ∨ (x = 0 ∧ y = 0) then WALL else UNKNOWN,
         if y = 0 then WALL else UNKNOWN,
         if x = 0 then WALL else UNKNOWN⟩ ∧
      mazeInit.has_unknown_walls ⟨x, y⟩ = some (decide (¬(x = 0 ∧ y = 0))) := by
  decide

/-- Witness for C7: the interior cell `(3,5)` after `initialise`. -/
theorem initialise_walls_and_mask_witness :
    3 < 16 ∧ 5 < 16 ∧
    (mazeInit.walls ⟨3, 5⟩ = some ⟨UNKNOWN, UNKNOWN, UNKNOWN, UNKNOWN⟩ ∧
     mazeInit.has_unknown_walls ⟨3, 5⟩ = some true) :=
  ⟨by decide, by decide,
    by simpa using initialise_walls_and_mask.2 3 (by norm_num) 5 (by norm_num)⟩

/-- C8: with the sensors enabled, `update_wall_sensors` returns (in
terms of its own published outputs, writing `L`/`R` for the nominal
minus the normalised left/right side readings): in `STEER_NORMAL`,
`L - R` when both side walls are detected, `2L` with only the left,
`-2R` with only the right, and `0` with neither; `2L` in
`STEER_LEFT_WALL`, `-2R` in `STEER_RIGHT_WALL`, `0` in any other mode
(`STEERING_OFF`); and in every mode the error is forced to `0` when
the front sum exceeds the saturation threshold 100. -/
theorem update_wall_sensors_error_formula (cfg : SensorConfig) (s : SensorsState)
    (h : s.s_sensors_enabled = true) :
    (update_wall_sensors cfg s).2 =
      (if 100 < (update_wall_sensors cfg s).1.g_front_sum then 0
       else if s.g_steering_mode = STEER_NORMAL then
         (if (update_wall_sensors cfg s).1.g_lss_has_wall ∧
             (update_wall_sensors cfg s).1.g_rss_has_wall then
            (cfg.SIDE_NOMINAL - (update_wall_sensors cfg s).1.g_lss) -
              (cfg.SIDE_NOMINAL - (update_wall_sensors cfg s).1.g_rss)
          else if (update_wall_sensors cfg s).1.g_lss_has_wall then
            2 * (cfg.SIDE_NOMINAL - (update_wall_sensors cfg s).1.g_lss)
          else if (update_wall_sensors cfg s).1.g_rss_has_wall then
            -2 * (cfg.SIDE_NOMINAL - (update_wall_sensors cfg s).1.g_rss)
          else 0)
       else if s.g_steering_mode = STEER_LEFT_WALL then
         2 * (cfg.SIDE_NOMINAL - (update_wall_sensors cfg s).1.g_lss)
       else if s.g_steering_mode = STEER_RIGHT_WALL then
         -2 * (cfg.SIDE_NOMINAL - (update_wall_sensors cfg s).1.g_rss)
       else 0) := by
  simp [update_wall_sensors, h]

/-- Witness for C8: the enabled state `sensorsOn` under `cfgUnit`. -/
theorem update_wall_sensors_error_formula_witness :
    sensorsOn.s_sensors_enabled = true ∧
    (update_wall_sensors cfgUnit sensorsOn).2 =
      (if 100 < (update_wall_sensors cfgUnit sensorsOn).1.g_front_sum then 0
       else if sensorsOn.g_steering_mode = STEER_NORMAL then
         (if (update_wall_sensors cfgUnit sensorsOn).1.g_lss_has_wall ∧
             (update_wall_sensors cfgUnit sensorsOn).1.g_rss_has_wall then
            (cfgUnit.SIDE_NOMINAL - (update_wall_sensors cfgUnit sensorsOn).1.g_lss) -
              (cfgUnit.SIDE_NOMINAL - (update_wall_sensors cfgUnit sensorsOn).1.g_rss)
          else if (update_wall_sensors cfgUnit sensorsOn).1.g_lss_has_wall then
            2 * (cfgUnit.SIDE_NOMINAL - (update_wall_sensors cfgUnit sensorsOn).1.g_lss)
          else if (update_wall_sensors cfgUnit sensorsOn).1.g_rss_has_wall then
            -2 * (cfgUnit.SIDE_NOMINAL - (update_wall_sensors cfgUnit sensorsOn).1.g_rss)
          else 0)
       else if sensorsOn.g_steering_mode = STEER_LEFT_WALL then
         2 * (cfgUnit.SIDE_NOMINAL - (update_wall_sensors cfgUnit sensorsOn).1.g_lss)
       else if sensorsOn.g_steering_mode = STEER_RIGHT_WALL then
         -2 * (cfgUnit.SIDE_NOMINAL - (update_wall_sensors cfgUnit sensorsOn).1.g_rss)
       else 0) :=
  ⟨rfl, update_wall_sensors_error_formula cfgUnit sensorsOn rfl⟩

/-- C9: for every error input and every stored `last_steering_error`,
`calculate_steering_adjustment` returns a value inside
`[-STEERING_ADJUST_LIMIT, STEERING_ADJUST_LIMIT]` (the limit, a robot
configuration constant not under src, is taken non-negative as the
spec's description of it as a correction limit requires). -/
theorem calculate_steering_adjustment_within_limit (cfg : SensorConfig) (s : SensorsState)
    (error : ℚ) (h : 0 ≤ cfg.STEERING_ADJUST_LIMIT) :
    -cfg.STEERING_ADJUST_LIMIT ≤ (calculate_steering_adjustment cfg s error).2 ∧
      (calculate_steering_adjustment cfg s error).2 ≤ cfg.STEERING_ADJUST_LIMIT := by
  exact constrain_within _ _ h

/-- Witness for C9: error 5 under `cfgUnit` from state `sensorsOn`. -/
theorem calculate_steering_adjustment_within_limit_witness :
    0 ≤ cfgUnit.STEERING_ADJUST_LIMIT ∧
    (-cfgUnit.STEERING_ADJUST_LIMIT ≤ (calculate_steering_adjustment cfgUnit sensorsOn 5).2 ∧
      (calculate_steering_adjustment cfgUnit sensorsOn 5).2 ≤ cfgUnit.STEERING_ADJUST_LIMIT) :=
  ⟨by norm_num [cfgUnit],
    calculate_steering_adjustment_within_limit cfgUnit sensorsOn 5 (by norm_num [cfgUnit])⟩

/-- C10: with the sensors disabled, `update_wall_sensors` returns 0 and
leaves the whole sensor state — raw and normalised readings, wall
flags, front sum and everything else — unchanged. -/
theorem update_wall_sensors_disabled_no_effect (cfg : SensorConfig) (s : SensorsState)
    (h : s.s_sensors_enabled = false) :
    update_wall_sensors cfg s = (s, 0) := by
  simp [update_wall_sensors, h]

/-- Witness for C10: the disabled state `sensorsOff` under `cfgUnit`. -/
theorem update_wall_sensors_disabled_no_effect_witness :
    sensorsOff.s_sensors_enabled = false ∧
    update_wall_sensors cfgUnit sensorsOff = (sensorsOff, 0) :=
  ⟨rfl, update_wall_sensors_disabled_no_effect cfgUnit sensorsOff rfl⟩

end Mazerunner
